import Mathlib

/-!
Shallow embedding of the packet-mutation test-case modules of the
`A2_constraintdriven_toolchain` corpus.  Every `.cpp` file of the repository is
one module with the same shape: a `module_name` returning `"Mediatek"`, a
`setup` that clears `ctx->config->fuzzing.global_timeout` and compiles the one
filter `"nr-rrc.rrcSetup_element"`, a `tx_pre_dissection` registering that
filter, and a `tx_post_dissection` that, when the filter matched, logs one
diagnostic line and performs a fixed sequence of byte stores
`pkt_buf[index - 48] = value;` before returning `1`, and otherwise returns `0`
leaving the buffer untouched.

The buffer is modelled as a length together with a total byte memory
`Nat → Nat`, so that a store at an offset at or past the length is
representable exactly as the C code performs it: the store happens
unconditionally, and the length is never touched.  The filter-match outcome
(the value of `wd_read_filter`) is an input `Bool`, since the decode engine is
external to the repository.
-/

set_option maxRecDepth 100000

namespace Wd

/-- One byte overwrite of a module's patch table: a source line
`pkt_buf[index - 48] = value;` becomes the entry `⟨index - 48, value⟩`. -/
structure PatchEntry where
  offset : Nat
  value  : Nat
deriving DecidableEq, Repr

/-- Packet buffer: a fixed length plus a total byte memory.  The cells below
`len` are the packet's bytes; memory is total over `Nat` so that an
out-of-range store (which C performs regardless) is representable. -/
structure Buffer where
  len : Nat
  mem : Nat → Nat

/-- Store semantics of `pkt_buf[i] = v;` — unconditional overwrite of cell
`i`, never consulting or changing the length. -/
def storeByte (b : Buffer) (i v : Nat) : Buffer :=
  { b with mem := fun j => if j = i then v else b.mem j }

/-- The straight-line sequence of stores in a module body, in source order. -/
def applyPatches (b : Buffer) (ps : List PatchEntry) : Buffer :=
  ps.foldl (fun acc p => storeByte acc p.offset p.value) b

/-- What one `tx_post_dissection` call produces: the buffer, the log lines it
emitted, and the returned status (`1` mutated, `0` unchanged). -/
structure PostResult where
  buf    : Buffer
  logs   : List String
  status : Nat

/-- Body shared by every module's `tx_post_dissection`, parameterized by the
module's patch table: if `wd_read_filter` yielded true, log the diagnostic,
perform every store of the table in order and return `1`; otherwise return
`0` with the buffer untouched. -/
def tx_post_dissection (ps : List PatchEntry) (b : Buffer) (filterMatch : Bool) :
    PostResult :=
  if filterMatch then
    { buf := applyPatches b ps
      logs := ["Malformed rrc setup sent!"]
      status := 1 }
  else
    { buf := b, logs := [], status := 0 }

/-- Return value of `module_name()` in every module of the corpus. -/
def module_name : String := "Mediatek"

/-- The `fuzzing` configuration block reached through `ctx->config`: the
`global_timeout` flag the modules write, plus every other field of the shared
run configuration, abstracted as `rest` of an arbitrary type `ρ`. -/
structure FuzzingConfig (ρ : Type) where
  global_timeout : Bool
  rest : ρ

/-- What a module's `setup` call produces: the updated configuration, the
filter names it compiled with `wd_filter`, and the returned status. -/
structure SetupResult (ρ : Type) where
  config  : FuzzingConfig ρ
  filters : List String
  status  : Nat

/-- Body of `setup` in every module of the corpus (the nine files are
token-identical here): assign `false` to `ctx->config->fuzzing.global_timeout`,
compile the single filter `"nr-rrc.rrcSetup_element"`, return `0`. -/
def setup {ρ : Type} (c : FuzzingConfig ρ) : SetupResult ρ :=
  { config := { c with global_timeout := false }
    filters := ["nr-rrc.rrcSetup_element"]
    status := 0 }

/-- Last value a patch table lists for offset `o`, if any. -/
def lastPatch : List PatchEntry → Nat → Option Nat
  | [], _ => none
  | p :: ps, o =>
    match lastPatch ps o with
    | some v => some v
    | none => if p.offset = o then some p.value else none

/-- Offsets of a patch table in source order. -/
def offsetsOf (ps : List PatchEntry) : List Nat :=
  ps.map PatchEntry.offset

theorem applyPatches_cons (b : Buffer) (p : PatchEntry) (ps : List PatchEntry) :
    applyPatches b (p :: ps) = applyPatches (storeByte b p.offset p.value) ps := rfl

theorem storeByte_len (b : Buffer) (i v : Nat) : (storeByte b i v).len = b.len := rfl

theorem applyPatches_len (ps : List PatchEntry) (b : Buffer) :
    (applyPatches b ps).len = b.len := by
  induction ps generalizing b with
  | nil => rfl
  | cons p ps ih => rw [applyPatches_cons, ih, storeByte_len]

theorem applyPatches_mem (ps : List PatchEntry) (b : Buffer) (o : Nat) :
    (applyPatches b ps).mem o = (lastPatch ps o).getD (b.mem o) := by
  induction ps generalizing b with
  | nil => rfl
  | cons p ps ih =>
    rw [applyPatches_cons, ih]
    cases h : lastPatch ps o with
    | some v => simp [lastPatch, h]
    | none =>
      simp only [lastPatch, h, storeByte]
      by_cases hpo : o = p.offset
      · subst hpo
        simp
      · rw [if_neg (fun hh : p.offset = o => hpo hh.symm), if_neg hpo, Option.getD_none]

theorem buffer_ext {b₁ b₂ : Buffer} (hlen : b₁.len = b₂.len)
    (hmem : b₁.mem = b₂.mem) : b₁ = b₂ := by
  cases b₁
  cases b₂
  simp only [Buffer.mk.injEq]
  exact ⟨hlen, hmem⟩

theorem applyPatches_idem (ps : List PatchEntry) (b : Buffer) :
    applyPatches (applyPatches b ps) ps = applyPatches b ps := by
  apply buffer_ext
  · rw [applyPatches_len, applyPatches_len]
  · funext o
    rw [applyPatches_mem, applyPatches_mem]
    cases h : lastPatch ps o with
    | some v => rfl
    | none => rfl

theorem storeByte_comm (b : Buffer) {i j : Nat} (h : i ≠ j) (v w : Nat) :
    storeByte (storeByte b i v) j w = storeByte (storeByte b j w) i v := by
  apply buffer_ext
  · rfl
  funext k
  simp only [storeByte]
  by_cases hkj : k = j
  · by_cases hki : k = i
    · exact absurd (hki.symm.trans hkj) h
    · have hji : j ≠ i := fun hh => h hh.symm
      simp [hkj, hki, hji]
  · by_cases hki : k = i
    · simp [hkj, hki, h]
    · simp [hkj, hki]

theorem applyPatches_perm {ps qs : List PatchEntry} (hperm : ps.Perm qs)
    (hnd : (offsetsOf ps).Nodup) (b : Buffer) :
    applyPatches b ps = applyPatches b qs := by
  refine hperm.foldl_eq' ?_ b
  intro x hx y hy z
  by_cases hxy : x = y
  · subst hxy
    rfl
  · have hoff : x.offset ≠ y.offset := by
      intro he
      exact hxy (List.inj_on_of_nodup_map hnd hx hy he)
    exact storeByte_comm z hoff x.value y.value

theorem applyPatches_mem_congr {b₁ b₂ : Buffer} (ps : List PatchEntry)
    (h : b₁.mem = b₂.mem) : (applyPatches b₁ ps).mem = (applyPatches b₂ ps).mem := by
  funext o
  rw [applyPatches_mem, applyPatches_mem, h]

/-- Builds a patch table from the raw source indices and the byte values: the
entry for a line `pkt_buf[index - 48] = value;` is `⟨index - 48, value⟩`. -/
def mkTable (idx vals : List Nat) : List PatchEntry :=
  List.zipWith (fun i v => PatchEntry.mk (i - 48) v) idx vals

/-- Patch table of `mac_sch_f71_f247.cpp`: the raw indices and byte values exactly as
written in the source lines `pkt_buf[index - 48] = value;`, in source order. -/
def table_mac_sch_f71_f247 : List PatchEntry :=
  mkTable
   [123, 266, 267]
   [0x09, 0x6d, 0x84]

/-- Patch table of `mac_sch_865_mut2.cpp`: the raw indices and byte values exactly as
written in the source lines `pkt_buf[index - 48] = value;`, in source order. -/
def table_mac_sch_865_mut2 : List PatchEntry :=
  mkTable
   [74, 701, 702, 703, 704, 705, 706, 707, 708, 709, 710, 711, 712, 713, 714, 715, 716, 717,
    718, 719, 720, 721, 722, 723, 724, 725, 726, 727, 728, 729, 730, 731, 732, 733, 734, 735]
   [0x9a, 0x07, 0x88, 0x11, 0xc6, 0x3f, 0x03, 0x44, 0x00, 0x60, 0x22, 0x02, 0x04, 0x0a, 0x98,
    0x2d, 0x06, 0x0c, 0x69, 0x00, 0xe3, 0x04, 0x71, 0x8f, 0xc0, 0xd1, 0x00, 0x1a, 0x0c, 0x80,
    0x81, 0x82, 0xa6, 0x00, 0x3f, 0x00]

/-- Patch table of `mac_sch_csi_IM_ResourcesForInterference_offset.cpp`: the raw indices and byte values exactly as
written in the source lines `pkt_buf[index - 48] = value;`, in source order. -/
def table_mac_sch_csi_IM_ResourcesForInterference_offset : List PatchEntry :=
  mkTable
   [74, 679, 682, 683, 684, 685, 686, 687, 688, 689, 690, 691, 692, 693, 694, 695, 696, 697,
    698, 699, 700, 701, 702, 703, 704, 705, 706, 707, 708, 709, 710, 711, 712, 713, 714, 715,
    716, 717, 718, 719, 720, 721, 722, 723, 724, 725, 726, 727, 728, 729, 730, 731, 732, 733,
    735]
   [0x8a, 0x86, 0x40, 0x38, 0x41, 0x1c, 0x63, 0xf0, 0x34, 0x40, 0x05, 0x81, 0x20, 0x20, 0x20,
    0xa9, 0x80, 0xd0, 0x40, 0x88, 0x07, 0x10, 0x23, 0x8c, 0x7e, 0x06, 0x88, 0x00, 0xc0, 0x44,
    0x04, 0x08, 0x15, 0x30, 0x1a, 0x0c, 0x19, 0x00, 0xe3, 0x04, 0x71, 0x8f, 0xc0, 0xd1, 0x00,
    0x1a, 0x0c, 0x80, 0x81, 0x82, 0xa6, 0x00, 0x3f, 0x00, 0x00]

/-- Patch table of `mac_sch_767_mut11.cpp`: the raw indices and byte values exactly as
written in the source lines `pkt_buf[index - 48] = value;`, in source order. -/
def table_mac_sch_767_mut11 : List PatchEntry :=
  mkTable
   [639, 640, 641, 644, 645, 646, 647, 650, 651, 652, 653, 654, 655, 657, 658, 660, 661, 662,
    663, 664, 665, 666, 667, 668, 669, 670, 671, 672, 673, 674, 675, 676, 677, 678, 679, 680,
    681, 682, 683, 684, 685, 686, 687, 688, 689, 690, 691, 692, 693, 694, 695, 696, 697, 698,
    699, 700, 701, 702, 703, 704, 705, 706, 707, 708, 709, 710, 711, 712, 713, 714, 715, 716,
    717, 718, 719, 720, 721, 722, 723, 724, 725, 726, 728, 729, 730, 731, 732, 733]
   [0x0b, 0x0a, 0x04, 0x08, 0x08, 0x20, 0x20, 0x00, 0x81, 0x52, 0x01, 0x80, 0x50, 0x60, 0xb8,
    0x61, 0x62, 0x02, 0x80, 0x90, 0x02, 0xa0, 0xc8, 0x02, 0xa1, 0x72, 0x03, 0x80, 0xd0, 0x04,
    0xe0, 0xd8, 0x04, 0xe1, 0x4b, 0x40, 0x81, 0x16, 0x40, 0x38, 0x41, 0x1c, 0x63, 0xf0, 0x34,
    0x40, 0x05, 0x81, 0x20, 0x20, 0x20, 0xa9, 0x82, 0xd0, 0x40, 0x86, 0x10, 0x0e, 0x20, 0x47,
    0x18, 0xfc, 0x0d, 0x10, 0x01, 0x80, 0x88, 0x08, 0x10, 0x2a, 0x60, 0xb4, 0x18, 0x31, 0xa4,
    0x03, 0x8c, 0x11, 0xc6, 0x3f, 0x03, 0x44, 0x68, 0x32, 0x02, 0x06, 0x0a, 0x98]

/-- Patch table of `mac_sch_865_mut4.cpp`: the raw indices and byte values exactly as
written in the source lines `pkt_buf[index - 48] = value;`, in source order. -/
def table_mac_sch_865_mut4 : List PatchEntry :=
  mkTable
   [74, 701, 702, 703, 704, 705, 706, 707, 708, 709, 710, 711, 712, 713, 714, 715, 716, 717,
    718, 719, 720, 721, 722, 723, 724, 725, 726, 727, 728, 729, 730, 731, 732, 733, 734, 735]
   [0x9a, 0x0d, 0xc4, 0x08, 0xe3, 0x1f, 0x81, 0xa2, 0x00, 0x30, 0x11, 0x01, 0x02, 0x05, 0x4c,
    0x16, 0x83, 0x06, 0x34, 0x80, 0x71, 0x82, 0x38, 0xc7, 0xe0, 0x68, 0x80, 0x0d, 0x06, 0x40,
    0x40, 0xc1, 0x53, 0x00, 0x3f, 0x00]

/-- Patch table of `mac_sch_904_mut8.cpp`: the raw indices and byte values exactly as
written in the source lines `pkt_buf[index - 48] = value;`, in source order. -/
def table_mac_sch_904_mut8 : List PatchEntry :=
  mkTable
   [719, 720, 721, 722, 723, 724, 725, 726, 727, 728, 729, 730, 731, 732, 733]
   [0x47, 0x0e, 0x30, 0x47, 0x18, 0xfc, 0x0d, 0x10, 0x01, 0xa0, 0xc8, 0x08, 0x18, 0x2a, 0x60]

/-- Patch table of `mac_sch_678_mut3.cpp`: the raw indices and byte values exactly as
written in the source lines `pkt_buf[index - 48] = value;`, in source order. -/
def table_mac_sch_678_mut3 : List PatchEntry :=
  mkTable
   [74, 568, 569, 570, 571, 572, 573, 574, 575, 576, 577, 578, 579, 580, 581, 582, 583, 584,
    585, 586, 587, 588, 589, 591, 592, 593, 594, 595, 596, 597, 598, 599, 600, 601, 602, 603,
    604, 605, 606, 608, 609, 610, 611, 612, 613, 617, 618, 619, 620, 621, 622, 623, 624, 625,
    626, 627, 628, 629, 630, 631, 632, 633, 634, 635, 636, 637, 638, 639, 640, 641, 643, 644,
    646, 647, 650, 651, 652, 653, 654, 655, 656, 657, 658, 659, 660, 661, 662, 663, 664, 665,
    666, 667, 668, 669, 670, 671, 672, 673, 674, 675, 676, 677, 678, 679, 680, 681, 682, 683,
    684, 685, 686, 687, 688, 689, 690, 691, 692, 693, 694, 695, 696, 697, 698, 699, 700, 701,
    702, 703, 704, 705, 706, 707, 708, 709, 710, 711, 712, 713, 714, 715, 716, 717, 718, 719,
    720, 721, 722, 723, 724, 725, 726, 727, 728, 729, 730, 731, 732, 733, 734, 735]
   [0x9a, 0x20, 0x80, 0xa0, 0x00, 0x72, 0xa0, 0xa0, 0x0c, 0x45, 0x55, 0x50, 0x02, 0x70, 0x03,
    0x04, 0xea, 0x80, 0x0a, 0x88, 0x40, 0x0a, 0x00, 0xe0, 0x26, 0x09, 0xd5, 0x00, 0x07, 0x10,
    0x80, 0x14, 0x14, 0x01, 0xc0, 0x8c, 0x13, 0xaa, 0x00, 0x21, 0x00, 0x28, 0x50, 0x00, 0x40,
    0x08, 0x00, 0x20, 0x10, 0x00, 0x42, 0x70, 0x5d, 0x00, 0x15, 0x28, 0x01, 0xc3, 0x74, 0x00,
    0x1c, 0xa0, 0xa7, 0x15, 0xd0, 0x00, 0x02, 0x85, 0x02, 0x00, 0x04, 0x04, 0x10, 0x00, 0x40,
    0xa9, 0x00, 0xc0, 0x28, 0x00, 0x30, 0x5c, 0x00, 0x30, 0xb1, 0x01, 0x40, 0x48, 0x01, 0x50,
    0x64, 0x01, 0x50, 0xb9, 0x01, 0xc0, 0x68, 0x02, 0x70, 0x6c, 0x02, 0x70, 0xa5, 0xa0, 0x40,
    0x8b, 0x20, 0x1c, 0x20, 0x8e, 0x31, 0xf8, 0x1a, 0x20, 0x02, 0xc0, 0x90, 0x10, 0x10, 0x54,
    0xc1, 0x68, 0x20, 0x43, 0x08, 0x07, 0x10, 0x23, 0x8c, 0x7e, 0x06, 0x88, 0x00, 0xc0, 0x44,
    0x04, 0x08, 0x15, 0x30, 0x5a, 0x0c, 0x18, 0xd2, 0x01, 0xc6, 0x08, 0xe3, 0x1f, 0x81, 0xa2,
    0x00, 0x34, 0x19, 0x01, 0x03, 0x05, 0x4c, 0x00, 0x3f, 0x00]

/-- Patch table of `mac_sch_787_mut3.cpp`: the raw indices and byte values exactly as
written in the source lines `pkt_buf[index - 48] = value;`, in source order. -/
def table_mac_sch_787_mut3 : List PatchEntry :=
  mkTable
   [657, 658]
   [0xcf, 0xf0]

/-- Patch table of `mac_sch_889_mut9.cpp`: the raw indices and byte values exactly as
written in the source lines `pkt_buf[index - 48] = value;`, in source order. -/
def table_mac_sch_889_mut9 : List PatchEntry :=
  mkTable
   [711, 712, 713, 714, 715, 716, 717, 718, 719, 720, 721, 722, 723, 724, 725, 726, 728, 729,
    730, 731, 732, 733]
   [0x12, 0x08, 0x10, 0x2a, 0x60, 0xb4, 0x18, 0x31, 0xa4, 0x03, 0x8c, 0x11, 0xc6, 0x3f, 0x03,
    0x44, 0x68, 0x32, 0x02, 0x06, 0x0a, 0x98]

/-- Literal transcription of `tx_post_dissection` of `mac_sch_f71_f247.cpp`
(lines 25-35): branch on the filter-match outcome, the diagnostic log line,
the three stores in source order, the returned status. -/
def tx_post_dissection_mac_sch_f71_f247 (pkt : Buffer) (filterMatch : Bool) :
    PostResult :=
  if filterMatch then
    { buf := storeByte (storeByte (storeByte pkt (123 - 48) 0x09) (266 - 48) 0x6d)
        (267 - 48) 0x84
      logs := ["Malformed rrc setup sent!"]
      status := 1 }
  else
    { buf := pkt, logs := [], status := 0 }

theorem tx_post_dissection_mac_sch_f71_f247_eq (b : Buffer) (m : Bool) :
    tx_post_dissection_mac_sch_f71_f247 b m
      = tx_post_dissection table_mac_sch_f71_f247 b m := by
  cases m with
  | false => rfl
  | true => rfl

/-- All nine patch tables of the corpus, one per `.cpp` file. -/
def corpusTables : List (List PatchEntry) :=
  [table_mac_sch_f71_f247,
   table_mac_sch_csi_IM_ResourcesForInterference_offset,
   table_mac_sch_865_mut2,
   table_mac_sch_787_mut3,
   table_mac_sch_889_mut9,
   table_mac_sch_678_mut3,
   table_mac_sch_865_mut4,
   table_mac_sch_904_mut8,
   table_mac_sch_767_mut11]

theorem lastPatch_eq_none (ps : List PatchEntry) (o : Nat) :
    lastPatch ps o = none ↔ o ∉ offsetsOf ps := by
  induction ps with
  | nil => simp [lastPatch, offsetsOf]
  | cons p ps ih =>
    have hsplit : lastPatch (p :: ps) o = none ↔
        (lastPatch ps o = none ∧ p.offset ≠ o) := by
      cases h : lastPatch ps o with
      | some v => simp [lastPatch, h]
      | none =>
        by_cases hpo : p.offset = o
        · simp [lastPatch, h, hpo]
        · simp [lastPatch, h, hpo]
    rw [hsplit, ih]
    rw [show offsetsOf (p :: ps) = p.offset :: offsetsOf ps from rfl, List.mem_cons, not_or]
    constructor
    · intro hh
      exact ⟨fun he => hh.2 he.symm, hh.1⟩
    · intro hh
      exact ⟨hh.2, fun he => hh.1 he.symm⟩

/-- C3: when the registered filter does not match — including every packet for
which decode failed, since `wd_read_filter` then yields false —
`tx_post_dissection` returns `0`, logs nothing, and the buffer is
byte-for-byte identical to its input, for every module's patch table. -/
theorem post_no_match_unchanged (ps : List PatchEntry) (b : Buffer) :
    (tx_post_dissection ps b false).status = 0 ∧
    (tx_post_dissection ps b false).buf = b ∧
    (tx_post_dissection ps b false).logs = [] :=
  ⟨rfl, rfl, rfl⟩

/-- C5: applying a patch table twice yields the same bytes as applying it
once — `apply(apply(B,P),P) = apply(B,P)` for every buffer `B` and table `P`. -/
theorem apply_idempotent (ps : List PatchEntry) (b : Buffer) :
    applyPatches (applyPatches b ps) ps = applyPatches b ps :=
  applyPatches_idem ps b

/-- C8: `setup` assigns `false` to `ctx->config->fuzzing.global_timeout`
whatever its previous value, compiles exactly the one filter
`"nr-rrc.rrcSetup_element"`, leaves every other configuration field (the
abstracted `rest` of the shared context, of arbitrary type `ρ`) unchanged,
and returns `0`. -/
theorem setup_effect (ρ : Type) (c : FuzzingConfig ρ) :
    (setup c).config.global_timeout = false ∧
    (setup c).config.rest = c.rest ∧
    (setup c).filters = ["nr-rrc.rrcSetup_element"] ∧
    (setup c).status = 0 :=
  ⟨rfl, rfl, rfl, rfl⟩

/-- C10: `module_name` is a pure constant — it equals the string
`"Mediatek"`, so every call returns the same value and no state is touched. -/
theorem module_name_constant : module_name = "Mediatek" := rfl

/-- C4: for every buffer `B` and patch table `P` whose offsets all lie below
`length(B)`, `apply(B,P)` preserves the length and leaves each offset `o`
holding the last value `P` lists for `o` (last write wins when offsets
collide) and the input byte when `P` does not mention `o`. -/
theorem apply_in_range_last_write_wins (b : Buffer) (ps : List PatchEntry)
    (hin : ∀ p ∈ ps, p.offset < b.len) :
    (applyPatches b ps).len = b.len ∧
    (∀ o v, lastPatch ps o = some v → (applyPatches b ps).mem o = v) ∧
    (∀ o, o ∉ offsetsOf ps → (applyPatches b ps).mem o = b.mem o) := by
  refine ⟨applyPatches_len ps b, ?_, ?_⟩
  · intro o v hv
    rw [applyPatches_mem, hv]
    rfl
  · intro o ho
    rw [applyPatches_mem, (lastPatch_eq_none ps o).mpr ho]
    rfl

/-- Witness for C4: the table of `mac_sch_f71_f247.cpp` on a zeroed buffer of
length 800, whose offsets 75, 218, 219 are all below 800. -/
theorem apply_in_range_last_write_wins_witness :
    (applyPatches (Buffer.mk 800 (fun _ => 0)) table_mac_sch_f71_f247).len
      = (Buffer.mk 800 (fun _ => 0)).len ∧
    (∀ o v, lastPatch table_mac_sch_f71_f247 o = some v →
      (applyPatches (Buffer.mk 800 (fun _ => 0)) table_mac_sch_f71_f247).mem o = v) ∧
    (∀ o, o ∉ offsetsOf table_mac_sch_f71_f247 →
      (applyPatches (Buffer.mk 800 (fun _ => 0)) table_mac_sch_f71_f247).mem o
        = (Buffer.mk 800 (fun _ => 0)).mem o) :=
  apply_in_range_last_write_wins (Buffer.mk 800 (fun _ => 0)) table_mac_sch_f71_f247
    (by decide)

/-- C7: a packet pass is a single deterministic function of the buffer bytes,
the buffer length and the filter-match outcome: two `tx_post_dissection` runs
on identical inputs produce identical output bytes, length, logs and status. -/
theorem post_deterministic (ps : List PatchEntry) (b₁ b₂ : Buffer) (m₁ m₂ : Bool)
    (hmem : b₁.mem = b₂.mem) (hlen : b₁.len = b₂.len) (hm : m₁ = m₂) :
    (tx_post_dissection ps b₁ m₁).buf.mem = (tx_post_dissection ps b₂ m₂).buf.mem ∧
    (tx_post_dissection ps b₁ m₁).buf.len = (tx_post_dissection ps b₂ m₂).buf.len ∧
    (tx_post_dissection ps b₁ m₁).logs = (tx_post_dissection ps b₂ m₂).logs ∧
    (tx_post_dissection ps b₁ m₁).status = (tx_post_dissection ps b₂ m₂).status := by
  have hb : b₁ = b₂ := buffer_ext hlen hmem
  subst hb
  subst hm
  exact ⟨rfl, rfl, rfl, rfl⟩

/-- Witness for C7: two runs of the `mac_sch_f71_f247.cpp` post hook on the
same zeroed 800-byte buffer with the filter matched. -/
theorem post_deterministic_witness :
    (tx_post_dissection table_mac_sch_f71_f247 (Buffer.mk 800 (fun _ => 0)) true).buf.mem
      = (tx_post_dissection table_mac_sch_f71_f247 (Buffer.mk 800 (fun _ => 0)) true).buf.mem ∧
    (tx_post_dissection table_mac_sch_f71_f247 (Buffer.mk 800 (fun _ => 0)) true).buf.len
      = (tx_post_dissection table_mac_sch_f71_f247 (Buffer.mk 800 (fun _ => 0)) true).buf.len ∧
    (tx_post_dissection table_mac_sch_f71_f247 (Buffer.mk 800 (fun _ => 0)) true).logs
      = (tx_post_dissection table_mac_sch_f71_f247 (Buffer.mk 800 (fun _ => 0)) true).logs ∧
    (tx_post_dissection table_mac_sch_f71_f247 (Buffer.mk 800 (fun _ => 0)) true).status
      = (tx_post_dissection table_mac_sch_f71_f247 (Buffer.mk 800 (fun _ => 0)) true).status :=
  post_deterministic table_mac_sch_f71_f247 (Buffer.mk 800 (fun _ => 0))
    (Buffer.mk 800 (fun _ => 0)) true true rfl rfl rfl

/-- C6: Scenario A on `mac_sch_f71_f247.cpp` — for any buffer of length 800
with the filter matched, the post hook returns `1` and the output holds
`0x09` at offset 75, `0x6d` at 218 and `0x84` at 219 (the source's
`123 - 48`, `266 - 48`, `267 - 48`), with every other byte and the length
unchanged. -/
theorem scenario_A_mac_sch_f71_f247 (b : Buffer) (hlen : b.len = 800) :
    (tx_post_dissection_mac_sch_f71_f247 b true).status = 1 ∧
    (tx_post_dissection_mac_sch_f71_f247 b true).buf.len = 800 ∧
    (tx_post_dissection_mac_sch_f71_f247 b true).buf.mem 75 = 0x09 ∧
    (tx_post_dissection_mac_sch_f71_f247 b true).buf.mem 218 = 0x6d ∧
    (tx_post_dissection_mac_sch_f71_f247 b true).buf.mem 219 = 0x84 ∧
    (∀ o, o ≠ 75 → o ≠ 218 → o ≠ 219 →
      (tx_post_dissection_mac_sch_f71_f247 b true).buf.mem o = b.mem o) := by
  refine ⟨rfl, ?_, ?_, ?_, ?_, ?_⟩
  · simpa [tx_post_dissection_mac_sch_f71_f247, storeByte] using hlen
  · simp [tx_post_dissection_mac_sch_f71_f247, storeByte]
  · simp [tx_post_dissection_mac_sch_f71_f247, storeByte]
  · simp [tx_post_dissection_mac_sch_f71_f247, storeByte]
  · intro o h75 h218 h219
    simp [tx_post_dissection_mac_sch_f71_f247, storeByte, h75, h218, h219]

/-- Witness for C6: the zeroed buffer of length 800. -/
theorem scenario_A_mac_sch_f71_f247_witness :
    (tx_post_dissection_mac_sch_f71_f247 (Buffer.mk 800 (fun _ => 0)) true).status = 1 ∧
    (tx_post_dissection_mac_sch_f71_f247 (Buffer.mk 800 (fun _ => 0)) true).buf.len = 800 ∧
    (tx_post_dissection_mac_sch_f71_f247 (Buffer.mk 800 (fun _ => 0)) true).buf.mem 75 = 0x09 ∧
    (tx_post_dissection_mac_sch_f71_f247 (Buffer.mk 800 (fun _ => 0)) true).buf.mem 218 = 0x6d ∧
    (tx_post_dissection_mac_sch_f71_f247 (Buffer.mk 800 (fun _ => 0)) true).buf.mem 219 = 0x84 ∧
    (∀ o, o ≠ 75 → o ≠ 218 → o ≠ 219 →
      (tx_post_dissection_mac_sch_f71_f247 (Buffer.mk 800 (fun _ => 0)) true).buf.mem o
        = (Buffer.mk 800 (fun _ => 0)).mem o) :=
  scenario_A_mac_sch_f71_f247 (Buffer.mk 800 (fun _ => 0)) rfl

/-- C1 counterexample: on a buffer of length 100 the `mac_sch_865_mut2.cpp`
post hook still performs the store of entry `⟨701 - 48, 0x07⟩` at offset 653,
which is not below the length — the byte at 653 changes from 0 to 0x07 — and
the only log line is the match diagnostic, not a warning: the claimed skip of
out-of-range writes does not exist in the code. -/
theorem post_out_of_range_write_not_skipped :
    PatchEntry.mk 653 0x07 ∈ table_mac_sch_865_mut2 ∧
    (Buffer.mk 100 (fun _ => 0)).len ≤ 653 ∧
    (tx_post_dissection table_mac_sch_865_mut2 (Buffer.mk 100 (fun _ => 0)) true).buf.mem 653
      = 0x07 ∧
    (Buffer.mk 100 (fun _ => 0)).mem 653 = 0 ∧
    (tx_post_dissection table_mac_sch_865_mut2 (Buffer.mk 100 (fun _ => 0)) true).logs
      = ["Malformed rrc setup sent!"] :=
  ⟨by decide, by decide, by decide, rfl, rfl⟩

/-- C1 amended: every entry of the patch table is applied unconditionally —
the store `buffer[offset] = value` happens whether or not the offset is below
the buffer length, the resulting bytes do not depend on the length at all,
and no warning is logged (the only log line is the single match diagnostic);
all entries are applied and the buffer's length never changes. -/
theorem post_applies_every_entry_unconditionally (ps : List PatchEntry)
    (n n' : Nat) (f : Nat → Nat) (b : Buffer) (p : PatchEntry) :
    (tx_post_dissection ps (Buffer.mk n f) true).buf.mem
      = (tx_post_dissection ps (Buffer.mk n' f) true).buf.mem ∧
    (storeByte b p.offset p.value).mem p.offset = p.value ∧
    (tx_post_dissection ps b true).logs = ["Malformed rrc setup sent!"] ∧
    (tx_post_dissection ps b true).buf.len = b.len := by
  refine ⟨applyPatches_mem_congr ps rfl, ?_, rfl, applyPatches_len ps b⟩
  simp [storeByte]

/-- C2 counterexample: with the table of `mac_sch_904_mut8.cpp` and an input
buffer of length 800 that already holds every patch byte, the match run
returns `1` yet the byte at the patched in-range offset 671 (= 719 - 48)
equals its input value — the output does not differ from the input at every
in-range patched offset, so "differs exactly at the in-range offsets" fails. -/
theorem post_match_need_not_differ_at_patched_offset :
    671 ∈ offsetsOf table_mac_sch_904_mut8 ∧
    (671 : Nat) < 800 ∧
    (tx_post_dissection table_mac_sch_904_mut8
      (applyPatches (Buffer.mk 800 (fun _ => 0)) table_mac_sch_904_mut8) true).status = 1 ∧
    (tx_post_dissection table_mac_sch_904_mut8
        (applyPatches (Buffer.mk 800 (fun _ => 0)) table_mac_sch_904_mut8) true).buf.mem 671
      = (applyPatches (Buffer.mk 800 (fun _ => 0)) table_mac_sch_904_mut8).mem 671 :=
  ⟨by decide, by decide, rfl, by decide⟩

/-- C2 amended: when the filter matches, `tx_post_dissection` returns `1`,
preserves the length, leaves every byte at an offset the table does not
mention unchanged, and ends with each patched offset holding the last value
the table lists for it — so the output differs from the input at most at
patched offsets, exactly at those whose input byte differed from the patch
value. -/
theorem post_match_effect (ps : List PatchEntry) (b : Buffer) :
    (tx_post_dissection ps b true).status = 1 ∧
    (tx_post_dissection ps b true).buf.len = b.len ∧
    (∀ o, o ∉ offsetsOf ps → (tx_post_dissection ps b true).buf.mem o = b.mem o) ∧
    (∀ o v, lastPatch ps o = some v → (tx_post_dissection ps b true).buf.mem o = v) := by
  refine ⟨rfl, applyPatches_len ps b, ?_, ?_⟩
  · intro o ho
    show (applyPatches b ps).mem o = b.mem o
    rw [applyPatches_mem, (lastPatch_eq_none ps o).mpr ho]
    rfl
  · intro o v hv
    show (applyPatches b ps).mem o = v
    rw [applyPatches_mem, hv]
    rfl

/-- C9: in every patch table of the corpus the effective offsets (source
index minus 48) are pairwise distinct and strictly increasing in source
order, and all lie between 26 and 687 inclusive; hence the offsets are
`Nodup`, no two writes collide, and applying a table's entries in any order
(any permutation of the table) yields the same final buffer. -/
theorem corpus_tables_sorted_bounded_order_irrelevant :
    (∀ t ∈ corpusTables, (offsetsOf t).Pairwise (· < ·) ∧
      ∀ p ∈ t, 26 ≤ p.offset ∧ p.offset ≤ 687) ∧
    (∀ t ∈ corpusTables, (offsetsOf t).Nodup) ∧
    (∀ t ∈ corpusTables, ∀ qs : List PatchEntry, ∀ b : Buffer,
      t.Perm qs → applyPatches b t = applyPatches b qs) := by
  have h1 : ∀ t ∈ corpusTables, (offsetsOf t).Pairwise (· < ·) ∧
      ∀ p ∈ t, 26 ≤ p.offset ∧ p.offset ≤ 687 := by decide
  have hnd : ∀ t ∈ corpusTables, (offsetsOf t).Nodup := by
    intro t ht
    exact List.Pairwise.imp (fun hab => Nat.ne_of_lt hab) (h1 t ht).1
  refine ⟨h1, hnd, ?_⟩
  intro t ht qs b hperm
  exact applyPatches_perm hperm (hnd t ht) b

end Wd
